import Mathlib

/-!
Shallow embedding of `app.py` (Spikra SmartAgent prototype).

Python strings are modelled as `List Char` (one element per code point);
Python's ASCII case mapping is modelled with `Char.toLower` / `Char.toUpper`.
Wall-clock time (`time.time()`), which is not shallowly embeddable, is
abstracted as a per-lead latency oracle `lat : Lead → Rat`, and
`traceback.format_exc()` as an oracle `tb : PyErr → PyStr`; the `round(_, 3)`
presentation-only rounding of latencies is omitted.  A raised Python
exception is modelled as the `Except.error` branch carrying the exception
message (`str(e)`).
-/

/-- Python string, one `Char` per code point. -/
abbrev PyStr := List Char

/-- Characters treated as whitespace by `str.strip` / `str.split` (ASCII). -/
def pyIsSpace (c : Char) : Bool :=
  c == ' ' || c == '\t' || c == '\n' || c == '\r' || c == '\x0b' || c == '\x0c'

/-- Drop leading whitespace. -/
def dropSpaces : PyStr → PyStr
  | [] => []
  | c :: rest => if pyIsSpace c then dropSpaces rest else c :: rest

/-- Longest whitespace-free initial segment. -/
def takeWord : PyStr → PyStr
  | [] => []
  | c :: rest => if pyIsSpace c then [] else c :: takeWord rest

/-- Python `str.strip()`: drop whitespace from both ends. -/
def pyStrip (s : PyStr) : PyStr :=
  ((dropSpaces ((dropSpaces s).reverse)).reverse)

/-- Python `str.lower()` (ASCII case mapping). -/
def pyLower (s : PyStr) : PyStr := s.map Char.toLower

/-- Python `str.capitalize()`: first character upper-cased, rest lower-cased. -/
def capitalizeStr : PyStr → PyStr
  | [] => []
  | c :: rest => Char.toUpper c :: rest.map Char.toLower

/-- Boolean test that `pat` is an initial segment of `s`. -/
def startsWith : PyStr → PyStr → Bool
  | [], _ => true
  | _ :: _, [] => false
  | a :: as, b :: bs => a == b && startsWith as bs

/-- Python substring test `pat in s`. -/
def containsSub (pat : PyStr) : PyStr → Bool
  | [] => pat.isEmpty
  | c :: rest => startsWith pat (c :: rest) || containsSub pat rest

/-- Python `s.split()[0]` as an `Option`: the first maximal whitespace-free
word of `s`, or `none` (an `IndexError`) when `s` has no such word. -/
def firstWordOpt (s : PyStr) : Option PyStr :=
  match dropSpaces s with
  | [] => none
  | c :: rest => some (c :: takeWord rest)

/-- A lead record: one CSV row, fields defaulted to the empty string. -/
structure Lead where
  id : PyStr
  name : PyStr
  email : PyStr
  company : PyStr
  interest : PyStr
  ticket : PyStr
deriving DecidableEq

/-- A raised Python exception, identified by its message `str(e)`. -/
structure PyErr where
  msg : PyStr
deriving DecidableEq

/-- The string literal "high" used by the offline classifier. -/
def highT : PyStr := "high".toList

/-- The string literal "medium" used by the offline classifier. -/
def mediumT : PyStr := "medium".toList

/-- The string literal "med" used by the offline classifier. -/
def medT : PyStr := "med".toList

/-- The classification string "Hot". -/
def hotT : PyStr := "Hot".toList

/-- The classification string "Warm". -/
def warmT : PyStr := "Warm".toList

/-- The classification string "Cold". -/
def coldT : PyStr := "Cold".toList

/-- The ellipsis marker appended by `mock_summarize` on truncation. -/
def ellipsisT : PyStr := "...".toList

/-- `mock_classify` from app.py: lower-case the interest field, return
"Hot" when it contains "high", "Warm" when it contains "medium" or "med",
otherwise "Cold". -/
def mock_classify (lead : Lead) : PyStr :=
  let it := pyLower lead.interest
  if containsSub highT it then hotT
  else if containsSub mediumT it || containsSub medT it then warmT
  else coldT

/-- `mock_followup` from app.py: fixed template interpolating name and
company. -/
def mock_followup (lead : Lead) : PyStr :=
  "Hi ".toList ++ lead.name ++ ", thanks for your interest in ".toList ++
    lead.company ++ ". I\x27d be happy to schedule a quick call to discuss next steps.".toList

/-- `mock_summarize` from app.py: strip the ticket, truncate to 120
characters appending "..." when longer, empty when the stripped ticket is
empty. -/
def mock_summarize (lead : Lead) : PyStr :=
  let t := pyStrip lead.ticket
  if t ≠ [] then t.take 120 ++ (if 120 < t.length then ellipsisT else []) else []

/-- `openai_classify` from app.py, as a function of the completion text
returned by the chat API (transport errors happen upstream of this point and
propagate to the caller): take the first word of the stripped completion
(raising `IndexError` when there is none), capitalize it, return it when it
is one of "Hot"/"Warm"/"Cold" and otherwise fall back to `mock_classify`. -/
def indexError : PyErr := ⟨"list index out of range".toList⟩

/-- See `indexError`; the parsing and fallback logic of `openai_classify`. -/
def openai_classify (respText : PyStr) (lead : Lead) : Except PyErr PyStr :=
  match firstWordOpt (pyStrip respText) with
  | none => Except.error indexError
  | some w =>
    let text := capitalizeStr w
    if text = hotT ∨ text = warmT ∨ text = coldT then Except.ok text
    else Except.ok (mock_classify lead)

/-- A decision strategy: the three per-lead operations, each of which may
raise.  The model-backed variant of app.py has this shape (each operation
may raise a transport or quota error); the offline variant never raises. -/
structure Strategy where
  classifyOp : Lead → Except PyErr PyStr
  followupOp : Lead → Except PyErr PyStr
  summarizeOp : Lead → Except PyErr PyStr

/-- The body of the `USE_OPENAI` branch of the per-lead try block in
`run_agent`: classify, conditionally draft a follow-up, conditionally
summarize; any raise short-circuits. -/
def processLeadOpenAI (s : Strategy) (lead : Lead) :
    Except PyErr (PyStr × PyStr × PyStr) := do
  let category ← s.classifyOp lead
  let followup ← if category = hotT ∨ category = warmT
    then s.followupOp lead else Except.ok []
  let ticket_summary ← if pyStrip lead.ticket ≠ []
    then s.summarizeOp lead else Except.ok []
  Except.ok (category, followup, ticket_summary)

/-- The body of the offline (mock) branch of the per-lead try block in
`run_agent`: never raises. -/
def processLeadMock (lead : Lead) : PyStr × PyStr × PyStr :=
  let category := mock_classify lead
  let followup := if category = hotT ∨ category = warmT then mock_followup lead else []
  let ticket_summary := mock_summarize lead
  (category, followup, ticket_summary)

/-- The offline branch wrapped as a (never-raising) per-lead step. -/
def mockStep (lead : Lead) : Except PyErr (PyStr × PyStr × PyStr) :=
  Except.ok (processLeadMock lead)

/-- Per-lead outcome inside a `RunResult`: either the success fields
(category, followup, ticket_summary, latency) or the error fields
(message and diagnostic trace). -/
inductive Outcome where
  | success (category followup ticket_summary : PyStr) (latency : Rat)
  | failure (error trace : PyStr)
deriving DecidableEq

/-- One per-lead result item as appended to `results` by `run_agent`. -/
structure RunResult where
  lead : Lead
  out : Outcome
deriving DecidableEq

/-- The mutable loop state of `run_agent`: the `results` list and the
`processed` / `errors` / `total_latency` accumulators. -/
structure RunState where
  results : List RunResult
  processed : Nat
  errors : Nat
  total_latency : Rat

/-- The aggregate `status` object returned by `run_agent` (total wall-clock
time omitted, as is the presentation-only rounding). -/
structure RunStatus where
  processed : Nat
  errors : Nat
  avg_latency_sec : Rat
deriving DecidableEq

/-- A FastAPI `HTTPException` with status code and detail message. -/
structure HTTPException where
  status_code : Nat
  detail : PyStr
deriving DecidableEq

/-- The item a lead contributes to `results`: success fields when the step
returns, error message plus diagnostic trace when it raises. -/
def itemOf (step : Lead → Except PyErr (PyStr × PyStr × PyStr))
    (lat : Lead → Rat) (tb : PyErr → PyStr) (lead : Lead) : RunResult :=
  match step lead with
  | Except.ok (c, f, s) => ⟨lead, Outcome.success c f s (lat lead)⟩
  | Except.error e => ⟨lead, Outcome.failure e.msg (tb e)⟩

/-- The per-row loop of `run_agent`: for each lead run the try block
(`step`), then either record success fields, increment `processed` and add
the latency, or record the error fields and increment `errors`; in both
cases append the item and continue with the next lead. -/
def runLoop (step : Lead → Except PyErr (PyStr × PyStr × PyStr))
    (lat : Lead → Rat) (tb : PyErr → PyStr) :
    List Lead → RunState → RunState
  | [], st => st
  | lead :: rest, st =>
    match step lead with
    | Except.ok (c, f, s) =>
      runLoop step lat tb rest
        ⟨st.results ++ [⟨lead, Outcome.success c f s (lat lead)⟩],
          st.processed + 1, st.errors, st.total_latency + lat lead⟩
    | Except.error e =>
      runLoop step lat tb rest
        ⟨st.results ++ [⟨lead, Outcome.failure e.msg (tb e)⟩],
          st.processed, st.errors + 1, st.total_latency⟩

/-- The initial loop state: empty results, zero counters. -/
def initState : RunState := ⟨[], 0, 0, 0⟩

/-- The final loop state of a run over `leads`. -/
def runOf (step : Lead → Except PyErr (PyStr × PyStr × PyStr))
    (lat : Lead → Rat) (tb : PyErr → PyStr) (leads : List Lead) : RunState :=
  runLoop step lat tb leads initState

/-- The `status` record computed after the loop: counters plus average
latency over processed leads, zero when none were processed. -/
def runStatusOf (step : Lead → Except PyErr (PyStr × PyStr × PyStr))
    (lat : Lead → Rat) (tb : PyErr → PyStr) (leads : List Lead) : RunStatus :=
  let st := runOf step lat tb leads
  ⟨st.processed, st.errors,
    if st.processed ≠ 0 then st.total_latency / (st.processed : Rat) else 0⟩

/-- The `/run` handler `run_agent`: raise HTTP 400 when `csv_path` does not
exist, otherwise loop over the leads parsed from the file (`leads`) and
return the status record and the per-lead results.  `fsExists` abstracts
`os.path.exists`; `leads` are the rows the CSV reader yields for the file
at `csv_path` (an empty list for a header-only file). -/
def run_agent (fsExists : PyStr → Bool) (csv_path : PyStr)
    (step : Lead → Except PyErr (PyStr × PyStr × PyStr))
    (lat : Lead → Rat) (tb : PyErr → PyStr) (leads : List Lead) :
    Except HTTPException (RunStatus × List RunResult) :=
  if fsExists csv_path then
    Except.ok (runStatusOf step lat tb leads, (runOf step lat tb leads).results)
  else
    Except.error ⟨400, "CSV not found: ".toList ++ csv_path⟩

theorem startsWith_self (s : PyStr) : startsWith s s = true := by
  induction s with
  | nil => rfl
  | cons c cs ih => simp [startsWith, ih]

theorem mock_classify_mem (lead : Lead) :
    mock_classify lead = hotT ∨ mock_classify lead = warmT ∨ mock_classify lead = coldT := by
  by_cases h1 : containsSub highT (pyLower lead.interest)
  · exact Or.inl (by simp [mock_classify, h1])
  · by_cases h2 : (containsSub mediumT (pyLower lead.interest)
        || containsSub medT (pyLower lead.interest)) = true
    · exact Or.inr (Or.inl (by simp [mock_classify, h1, h2]))
    · exact Or.inr (Or.inr (by simp [mock_classify, h1, h2]))

theorem mock_followup_ne_nil (lead : Lead) : mock_followup lead ≠ [] := by
  have h : "Hi ".toList = 'H' :: 'i' :: ' ' :: [] := by decide
  unfold mock_followup
  rw [h]
  simp

theorem runLoop_results (step : Lead → Except PyErr (PyStr × PyStr × PyStr))
    (lat : Lead → Rat) (tb : PyErr → PyStr) :
    ∀ (leads : List Lead) (st : RunState),
      (runLoop step lat tb leads st).results
        = st.results ++ leads.map (itemOf step lat tb) := by
  intro leads
  induction leads with
  | nil => intro st; simp [runLoop]
  | cons lead rest ih =>
    intro st
    cases h : step lead with
    | ok v =>
      obtain ⟨c, f, s⟩ := v
      simp [runLoop, h, ih, itemOf]
    | error e =>
      simp [runLoop, h, ih, itemOf]

theorem runLoop_counts (step : Lead → Except PyErr (PyStr × PyStr × PyStr))
    (lat : Lead → Rat) (tb : PyErr → PyStr) :
    ∀ (leads : List Lead) (st : RunState),
      (runLoop step lat tb leads st).processed + (runLoop step lat tb leads st).errors
        = st.processed + st.errors + leads.length := by
  intro leads
  induction leads with
  | nil => intro st; simp [runLoop]
  | cons lead rest ih =>
    intro st
    cases h : step lead with
    | ok v =>
      obtain ⟨c, f, s⟩ := v
      simp [runLoop, h, ih]
      omega
    | error e =>
      simp [runLoop, h, ih]
      omega

theorem dropSpaces_eq_nil (s : PyStr) (h : ∀ c ∈ s, pyIsSpace c = true) :
    dropSpaces s = [] := by
  induction s with
  | nil => rfl
  | cons c rest ih =>
    have hc : pyIsSpace c = true := h c (List.mem_cons_self c rest)
    simp [dropSpaces, hc]
    exact ih fun d hd => h d (List.mem_cons_of_mem c hd)

theorem exists_nonspace_dropSpaces (s : PyStr)
    (h : ∃ c ∈ s, pyIsSpace c = false) :
    ∃ c ∈ dropSpaces s, pyIsSpace c = false := by
  induction s with
  | nil => simp at h
  | cons c rest ih =>
    by_cases hc : pyIsSpace c
    · simp only [dropSpaces, hc, if_pos]
      apply ih
      obtain ⟨d, hd, hdns⟩ := h
      rcases List.mem_cons.mp hd with rfl | hmem
      · rw [hc] at hdns; cases hdns
      · exact ⟨d, hmem, hdns⟩
    · simp only [dropSpaces, hc]
      exact ⟨c, List.mem_cons_self c rest, by simpa using hc⟩

theorem exists_nonspace_pyStrip (s : PyStr)
    (h : ∃ c ∈ s, pyIsSpace c = false) :
    ∃ c ∈ pyStrip s, pyIsSpace c = false := by
  unfold pyStrip
  have h1 := exists_nonspace_dropSpaces s h
  have h2 : ∃ c ∈ (dropSpaces s).reverse, pyIsSpace c = false := by
    obtain ⟨c, hc, hns⟩ := h1
    exact ⟨c, List.mem_reverse.mpr hc, hns⟩
  have h3 := exists_nonspace_dropSpaces _ h2
  obtain ⟨c, hc, hns⟩ := h3
  exact ⟨c, List.mem_reverse.mpr hc, hns⟩

theorem pyStrip_eq_nil (s : PyStr) (h : ∀ c ∈ s, pyIsSpace c = true) :
    pyStrip s = [] := by
  unfold pyStrip
  rw [dropSpaces_eq_nil s h]
  rfl

theorem dropSpaces_ne_nil (s : PyStr) (h : ∃ c ∈ s, pyIsSpace c = false) :
    dropSpaces s ≠ [] := by
  obtain ⟨c, hc, _⟩ := exists_nonspace_dropSpaces s h
  intro hnil
  rw [hnil] at hc
  cases hc

/-- Example lead whose interest contains "high" (mixed case). -/
def leadHotW : Lead :=
  ⟨"1".toList, "Ana".toList, [], "Acme".toList, "High value".toList, "printer broken".toList⟩

/-- Example lead whose interest contains "medium" but not "high". -/
def leadMedW : Lead :=
  ⟨"2".toList, "Bo".toList, [], "Beta".toList, "Medium".toList, []⟩

/-- Example lead whose interest contains neither "high" nor "med". -/
def leadColdW : Lead :=
  ⟨"3".toList, "Cy".toList, [], "Gamma".toList, "none".toList, []⟩

/-- Example lead whose interest contains both "high" and "medium". -/
def leadBothW : Lead :=
  ⟨"4".toList, "Di".toList, [], "Delta".toList, "HIGH medium".toList, []⟩

/-- Claim C3: the offline classifier returns Hot when the lower-cased
interest field contains "high", Warm when it does not contain "high" but
contains "medium" or "med", and Cold when it contains none of these; the
rules are tried in this order, so "all other values" means values matching
no earlier rule. -/
theorem mockClassify_rules (lead : Lead) :
    (containsSub highT (pyLower lead.interest) = true → mock_classify lead = hotT)
    ∧ (containsSub highT (pyLower lead.interest) = false →
        (containsSub mediumT (pyLower lead.interest)
          || containsSub medT (pyLower lead.interest)) = true →
        mock_classify lead = warmT)
    ∧ (containsSub highT (pyLower lead.interest) = false →
        (containsSub mediumT (pyLower lead.interest)
          || containsSub medT (pyLower lead.interest)) = false →
        mock_classify lead = coldT) :=
  ⟨fun h1 => by simp [mock_classify, h1],
   fun h1 h2 => by simp [mock_classify, h1, h2],
   fun h1 h2 => by simp [mock_classify, h1, h2]⟩

/-- Witness for `mockClassify_rules` at three concrete leads. -/
theorem mockClassify_rules_witness :
    mock_classify leadHotW = hotT
    ∧ mock_classify leadMedW = warmT
    ∧ mock_classify leadColdW = coldT :=
  ⟨(mockClassify_rules leadHotW).1 (by decide),
   (mockClassify_rules leadMedW).2.1 (by decide) (by decide),
   (mockClassify_rules leadColdW).2.2 (by decide) (by decide)⟩

/-- Claim C10: when the lower-cased interest field contains both "high"
and "medium" (or "med"), the offline classifier returns Hot — the "high"
rule takes precedence. -/
theorem mockClassify_high_first (lead : Lead)
    (h1 : containsSub highT (pyLower lead.interest) = true)
    (_h2 : containsSub mediumT (pyLower lead.interest) = true
      ∨ containsSub medT (pyLower lead.interest) = true) :
    mock_classify lead = hotT := by
  simp [mock_classify, h1]

/-- Witness for `mockClassify_high_first` at a lead with interest
"HIGH medium". -/
theorem mockClassify_high_first_witness : mock_classify leadBothW = hotT :=
  mockClassify_high_first leadBothW (by decide) (Or.inl (by decide))

/-- Lead whose ticket " a" has leading whitespace. -/
def leadPadTicket : Lead := ⟨[], [], [], [], [], " a".toList⟩

/-- Lead whose ticket is 200 space characters. -/
def leadSpaces200 : Lead := ⟨[], [], [], [], [], List.replicate 200 ' '⟩

set_option maxRecDepth 4000 in
/-- Claim C4 counterexample: for the ticket " a" the offline summary "a"
contains no truncation marker yet is not a prefix of the original ticket;
and for a 200-character all-space ticket the summary is empty, not the
first 120 characters plus the ellipsis marker. -/
theorem mockSummarize_cex :
    (containsSub ellipsisT (mock_summarize leadPadTicket) = false
      ∧ startsWith (mock_summarize leadPadTicket) leadPadTicket.ticket = false)
    ∧ (leadSpaces200.ticket.length = 200
      ∧ mock_summarize leadSpaces200 ≠ leadSpaces200.ticket.take 120 ++ ellipsisT) := by
  decide

/-- Claim C4 (amended): for any lead, the offline ticket summary has length
at most 123 characters; when the whitespace-stripped ticket has at most 120
characters (so no truncation marker is appended) the summary is a prefix of
the stripped ticket; an empty ticket yields an empty summary; and a
200-character ticket equal to its own strip (no leading or trailing
whitespace) yields the first 120 characters plus the ellipsis marker. -/
theorem mockSummarize_bounds (lead : Lead) :
    (mock_summarize lead).length ≤ 123
    ∧ ((pyStrip lead.ticket).length ≤ 120 →
        startsWith (mock_summarize lead) (pyStrip lead.ticket) = true)
    ∧ (lead.ticket = [] → mock_summarize lead = [])
    ∧ (pyStrip lead.ticket = lead.ticket → lead.ticket.length = 200 →
        mock_summarize lead = lead.ticket.take 120 ++ ellipsisT) := by
  refine ⟨?_, ?_, ?_, ?_⟩
  · simp only [mock_summarize]
    by_cases h : pyStrip lead.ticket = []
    · simp [h]
    · rw [if_pos h, List.length_append, List.length_take]
      by_cases h2 : 120 < (pyStrip lead.ticket).length
      · rw [if_pos h2]
        have h3 : ellipsisT.length = 3 := rfl
        rw [h3]
        omega
      · rw [if_neg h2]
        simp only [List.length_nil]
        omega
  · intro hle
    simp only [mock_summarize]
    by_cases h : pyStrip lead.ticket = []
    · rw [h]
      simp [startsWith]
    · rw [if_pos h]
      have hnot : ¬ (120 < (pyStrip lead.ticket).length) := by omega
      rw [if_neg hnot, List.append_nil, List.take_of_length_le hle]
      exact startsWith_self _
  · intro h
    have hstrip : pyStrip lead.ticket = [] := by rw [h]; rfl
    simp [mock_summarize, hstrip]
  · intro h1 h2
    simp only [mock_summarize]
    rw [h1]
    have hne : lead.ticket ≠ [] := by
      intro hnil
      rw [hnil] at h2
      simp at h2
    rw [if_pos hne]
    have hlt : 120 < lead.ticket.length := by omega
    rw [if_pos hlt]

/-- Lead whose ticket is 200 copies of the letter a. -/
def lead200a : Lead := ⟨[], [], [], [], [], List.replicate 200 'a'⟩

set_option maxRecDepth 4000 in
/-- Witness for `mockSummarize_bounds` at a 200-character ticket. -/
theorem mockSummarize_bounds_witness :
    mock_summarize lead200a = lead200a.ticket.take 120 ++ ellipsisT :=
  (mockSummarize_bounds lead200a).2.2.2 (by decide) (by decide)

/-- Lead whose ticket is a single space character. -/
def leadWsTicket : Lead := ⟨[], [], [], [], [], " ".toList⟩

/-- Claim C5 counterexample: a lead whose ticket is a single space has a
non-empty input ticket field but an empty offline ticket summary in its
processed result, refuting "ticket_summary is non-empty iff the input
ticket field is non-empty". -/
theorem processLeadMock_cex :
    leadWsTicket.ticket ≠ [] ∧ (processLeadMock leadWsTicket).2.2 = [] := by
  decide

/-- Claim C5 (amended): under the offline variant, for every lead the
followup field of its result is non-empty iff its classification is Hot or
Warm, and its ticket summary is non-empty iff the whitespace-stripped input
ticket field is non-empty. -/
theorem processLeadMock_fields (lead : Lead) :
    ((processLeadMock lead).2.1 ≠ [] ↔
      ((processLeadMock lead).1 = hotT ∨ (processLeadMock lead).1 = warmT))
    ∧ ((processLeadMock lead).2.2 ≠ [] ↔ pyStrip lead.ticket ≠ []) := by
  constructor
  · have hwh : warmT ≠ hotT := by decide
    have hch : coldT ≠ hotT := by decide
    have hcw : coldT ≠ warmT := by decide
    rcases mock_classify_mem lead with h | h | h
    · simp [processLeadMock, h, mock_followup_ne_nil lead]
    · simp [processLeadMock, h, hwh, mock_followup_ne_nil lead]
    · simp [processLeadMock, h, hch, hcw]
  · cases h : pyStrip lead.ticket with
    | nil => simp [processLeadMock, mock_summarize, h]
    | cons c cs => simp [processLeadMock, mock_summarize, h, List.take_eq_nil_iff]

/-- Witness for `processLeadMock_fields` at a Hot lead with a non-empty
ticket. -/
theorem processLeadMock_fields_witness :
    (processLeadMock leadHotW).2.1 ≠ [] ∧ (processLeadMock leadHotW).2.2 ≠ [] :=
  ⟨(processLeadMock_fields leadHotW).1.mpr (Or.inl (by decide)),
   (processLeadMock_fields leadHotW).2.mpr (by decide)⟩

/-- Claim C6: when the capitalized first word of the model completion is
not one of "Hot"/"Warm"/"Cold", `openai_classify` returns the offline
classifier's result for the lead instead of raising; and every value it
returns (rather than raises) is one of "Hot"/"Warm"/"Cold". -/
theorem openaiClassify_fallback (respText : PyStr) (lead : Lead) :
    (∀ w, firstWordOpt (pyStrip respText) = some w →
      capitalizeStr w ≠ hotT → capitalizeStr w ≠ warmT → capitalizeStr w ≠ coldT →
      openai_classify respText lead = Except.ok (mock_classify lead))
    ∧ (∀ r, openai_classify respText lead = Except.ok r →
        r = hotT ∨ r = warmT ∨ r = coldT) := by
  constructor
  · intro w hw h1 h2 h3
    unfold openai_classify
    rw [hw]
    have hcond : ¬ (capitalizeStr w = hotT ∨ capitalizeStr w = warmT ∨ capitalizeStr w = coldT) := by
      intro hor
      rcases hor with h | h | h
      · exact h1 h
      · exact h2 h
      · exact h3 h
    simp [hcond]
  · intro r hr
    unfold openai_classify at hr
    cases hfw : firstWordOpt (pyStrip respText) with
    | none => rw [hfw] at hr; cases hr
    | some w =>
      rw [hfw] at hr
      simp only at hr
      by_cases hcond : capitalizeStr w = hotT ∨ capitalizeStr w = warmT ∨ capitalizeStr w = coldT
      · rw [if_pos hcond] at hr
        cases hr
        exact hcond
      · rw [if_neg hcond] at hr
        cases hr
        exact mock_classify_mem lead

/-- A model completion whose first word is not a valid classification. -/
def respMaybe : PyStr := "maybe later".toList

/-- Witness for `openaiClassify_fallback` at the completion "maybe later". -/
theorem openaiClassify_fallback_witness :
    openai_classify respMaybe leadColdW = Except.ok (mock_classify leadColdW)
    ∧ (mock_classify leadColdW = hotT ∨ mock_classify leadColdW = warmT
        ∨ mock_classify leadColdW = coldT) :=
  ⟨(openaiClassify_fallback respMaybe leadColdW).1 ("maybe".toList)
      (by decide) (by decide) (by decide) (by decide),
   (openaiClassify_fallback respMaybe leadColdW).2 (mock_classify leadColdW)
      ((openaiClassify_fallback respMaybe leadColdW).1 ("maybe".toList)
        (by decide) (by decide) (by decide) (by decide))⟩

/-- Claim C9: an empty or whitespace-only model completion makes
`openai_classify` raise (there is no first word to index), rather than fall
back to the offline classifier; the fallback path is reachable only for
completions containing at least one whitespace-delimited word, for which
the parse never raises. -/
theorem openaiClassify_empty_resp (respText : PyStr) (lead : Lead) :
    ((∀ c ∈ respText, pyIsSpace c = true) →
      openai_classify respText lead = Except.error indexError)
    ∧ ((∃ c ∈ respText, pyIsSpace c = false) →
      ∃ r, openai_classify respText lead = Except.ok r) := by
  constructor
  · intro h
    have hstrip : pyStrip respText = [] := pyStrip_eq_nil respText h
    simp [openai_classify, firstWordOpt, hstrip, dropSpaces]
  · intro h
    have hne : dropSpaces (pyStrip respText) ≠ [] := by
      apply dropSpaces_ne_nil
      exact exists_nonspace_pyStrip respText h
    unfold openai_classify firstWordOpt
    cases hd : dropSpaces (pyStrip respText) with
    | nil => exact absurd hd hne
    | cons c cs =>
      simp only
      by_cases hcond : capitalizeStr (c :: takeWord cs) = hotT
        ∨ capitalizeStr (c :: takeWord cs) = warmT
        ∨ capitalizeStr (c :: takeWord cs) = coldT
      · rw [if_pos hcond]
        exact ⟨_, rfl⟩
      · rw [if_neg hcond]
        exact ⟨_, rfl⟩

/-- A whitespace-only model completion. -/
def respBlank : PyStr := "   ".toList

/-- A model completion with a parseable first word. -/
def respHotWord : PyStr := " hot ".toList

/-- Witness for `openaiClassify_empty_resp`: a blank completion raises, a
completion containing the word hot does not. -/
theorem openaiClassify_empty_resp_witness :
    openai_classify respBlank leadColdW = Except.error indexError
    ∧ (∃ r, openai_classify respHotWord leadColdW = Except.ok r) :=
  ⟨(openaiClassify_empty_resp respBlank leadColdW).1 (by decide),
   (openaiClassify_empty_resp respHotWord leadColdW).2 (by decide)⟩

/-- Claim C1: for every per-lead step (any strategy's classify /
draft-followup / summarize-ticket chain) and every input sequence, the run
returns exactly one RunResult per lead in input order (the i-th result is
the item of the i-th lead); a lead whose step raises contributes an error
item carrying the error message and the diagnostic trace, and the remaining
leads are still processed — the results are the map of the per-lead item
function over all leads. -/
theorem runAgent_isolation (path : PyStr)
    (step : Lead → Except PyErr (PyStr × PyStr × PyStr))
    (lat : Lead → Rat) (tb : PyErr → PyStr) (leads : List Lead) :
    run_agent (fun _ => true) path step lat tb leads
      = Except.ok (runStatusOf step lat tb leads, leads.map (itemOf step lat tb))
    ∧ (leads.map (itemOf step lat tb)).length = leads.length
    ∧ (∀ lead e, step lead = Except.error e →
        itemOf step lat tb lead = ⟨lead, Outcome.failure e.msg (tb e)⟩) := by
  refine ⟨?_, by simp, ?_⟩
  · have h : (runOf step lat tb leads).results = leads.map (itemOf step lat tb) := by
      rw [runOf, runLoop_results]
      simp [initState]
    simp [run_agent, h]
  · intro lead e he
    simp [itemOf, he]

/-- Latency oracle assigning zero seconds to every lead. -/
def lat0 : Lead → Rat := fun _ => 0

/-- Trace oracle assigning a fixed diagnostic trace to every exception. -/
def tb0 : PyErr → PyStr := fun _ => "Traceback (most recent call last)".toList

/-- A propagated model-API quota error. -/
def quotaErr : PyErr := ⟨"RateLimitError: You exceeded your current quota".toList⟩

/-- Fifth example lead. -/
def leadFifthW : Lead := ⟨"5".toList, "Ed".toList, [], "Eps".toList, "low".toList, []⟩

/-- Five input leads; the strategy below raises on the one with id "3". -/
def leads5 : List Lead := [leadHotW, leadMedW, leadColdW, leadBothW, leadFifthW]

/-- A model-backed strategy whose classify raises a quota error on the lead
with id "3" and otherwise answers like the offline one. -/
def strat5 : Strategy :=
  ⟨fun l => if l.id = "3".toList then Except.error quotaErr else Except.ok (mock_classify l),
   fun l => Except.ok (mock_followup l),
   fun l => Except.ok (mock_summarize l)⟩

/-- The per-lead step of `strat5`. -/
def step5 : Lead → Except PyErr (PyStr × PyStr × PyStr) := processLeadOpenAI strat5

/-- Witness for `runAgent_isolation`: one propagated error among five leads
still yields five results, four processed and one errored, with the error
item recording message and trace. -/
theorem runAgent_isolation_witness :
    run_agent (fun _ => true) [] step5 lat0 tb0 leads5
      = Except.ok (runStatusOf step5 lat0 tb0 leads5, leads5.map (itemOf step5 lat0 tb0))
    ∧ (leads5.map (itemOf step5 lat0 tb0)).length = 5
    ∧ (runStatusOf step5 lat0 tb0 leads5).processed = 4
    ∧ (runStatusOf step5 lat0 tb0 leads5).errors = 1
    ∧ itemOf step5 lat0 tb0 leadColdW
        = ⟨leadColdW, Outcome.failure quotaErr.msg (tb0 quotaErr)⟩ :=
  ⟨(runAgent_isolation [] step5 lat0 tb0 leads5).1,
   Eq.trans ((runAgent_isolation [] step5 lat0 tb0 leads5).2.1) (by decide),
   by decide,
   by decide,
   (runAgent_isolation [] step5 lat0 tb0 leads5).2.2 leadColdW quotaErr (by rfl)⟩

/-- Claim C2: for every run, processed + errors equals the number of input
leads — each lead increments exactly one of the two counters. -/
theorem runStatus_counts (step : Lead → Except PyErr (PyStr × PyStr × PyStr))
    (lat : Lead → Rat) (tb : PyErr → PyStr) (leads : List Lead) :
    (runStatusOf step lat tb leads).processed + (runStatusOf step lat tb leads).errors
      = leads.length := by
  have h := runLoop_counts step lat tb leads initState
  simp only [initState] at h
  simpa [runStatusOf, runOf, initState] using h

/-- Claim C7: a run over an empty CSV (no data rows) returns processed = 0,
errors = 0, average latency = 0, and an empty results list; the
average-latency branch for zero processed leads yields 0 directly. -/
theorem runAgent_empty (path : PyStr)
    (step : Lead → Except PyErr (PyStr × PyStr × PyStr))
    (lat : Lead → Rat) (tb : PyErr → PyStr) :
    run_agent (fun _ => true) path step lat tb []
      = Except.ok ((⟨0, 0, 0⟩ : RunStatus), ([] : List RunResult)) := rfl

/-- Claim C8: when `csv_path` names no existing file, the handler returns
an HTTP 400 client error carrying the message and the path, and no results:
the error is raised before the loop, so no lead is processed. -/
theorem runAgent_missing_csv (fsExists : PyStr → Bool) (path : PyStr)
    (step : Lead → Except PyErr (PyStr × PyStr × PyStr))
    (lat : Lead → Rat) (tb : PyErr → PyStr) (leads : List Lead)
    (h : fsExists path = false) :
    run_agent fsExists path step lat tb leads
      = Except.error ⟨400, "CSV not found: ".toList ++ path⟩ := by
  simp [run_agent, h]

/-- A trivial never-raising step. -/
def stepTriv : Lead → Except PyErr (PyStr × PyStr × PyStr) :=
  fun _ => Except.ok ([], [], [])

/-- Witness for `runAgent_missing_csv` at a concrete missing path. -/
theorem runAgent_missing_csv_witness :
    run_agent (fun _ => false) ("missing.csv".toList) stepTriv lat0 tb0 []
      = Except.error ⟨400, "CSV not found: ".toList ++ "missing.csv".toList⟩ :=
  runAgent_missing_csv (fun _ => false) ("missing.csv".toList) stepTriv lat0 tb0 [] rfl
